import Mathlib

/-!
Shallow embedding of `src/stube.jsx` (the STUBE Cube demo component).

Conventions of the embedding:
* JS numbers that hold integer millisecond timestamps and scores are `ℤ`;
  `Math.floor (a / 1000)` on an integer `a` is `Int.fdiv a 1000`.
* Pixel coordinates and 3-D positions are `ℚ` (the claims are algebraic
  identities, stated over exact arithmetic).
* React state setters (`setScore`, `setMessage`, ...) are modelled as an
  explicit list of effects folded over the component state, which preserves
  the order in which the source issues them.
* Fallible JS evaluation (reading a property of `undefined`) is `Except`.
-/

namespace Stube

/-! ## Session state (`score`, `startTime`, `isPlaying`, `message`) -/

/-- The React state of the component that the game logic touches:
`score`, `startTime`, `isPlaying`, `message` (lines 20-23 of the source). -/
structure GameState where
  score : ℤ
  startTime : Option ℤ
  isPlaying : Bool
  message : String
deriving DecidableEq, Repr

/-- The initial component state: `useState(0)`, `useState(null)`,
`useState(false)`, `useState('')`. -/
def initialState : GameState :=
  { score := 0, startTime := none, isPlaying := false, message := "" }

/-- One React state-setter call issued by the game logic. -/
inductive Eff where
  | setScore (n : ℤ)
  | setStartTime (t : Option ℤ)
  | setIsPlaying (b : Bool)
  | setMessage (m : String)
deriving DecidableEq, Repr

/-- Apply a single state-setter to the component state. -/
def applyEff (s : GameState) : Eff → GameState
  | .setScore n => { s with score := n }
  | .setStartTime t => { s with startTime := t }
  | .setIsPlaying b => { s with isPlaying := b }
  | .setMessage m => { s with message := m }

/-- The message template `` `Game Over! Your score: ${score}. Submit to leaderboard!` ``. -/
def gameOverMsg (sc : ℤ) : String :=
  "Game Over! Your score: " ++ toString sc ++ ". Submit to leaderboard!"

/-- The dummy score `timeElapsed * 10` with
`timeElapsed = Math.floor((Date.now() - startTime) / 1000)`. -/
def elapsedScore (now t0 : ℤ) : ℤ :=
  (Int.fdiv (now - t0) 1000) * 10

/-- The state-setter calls issued by `startGame` (source lines 110-115), in
source order. -/
def startGameEffs (now : ℤ) : List Eff :=
  [Eff.setScore 0, Eff.setStartTime (some now), Eff.setIsPlaying true,
   Eff.setMessage "Game started! Rotate the cube."]

/-- Model of `startGame`, at wall-clock time `now` (`Date.now()`), as a transformer of
the component state. -/
def startGame (now : ℤ) (s : GameState) : GameState :=
  (startGameEffs now).foldl applyEff s

/-- The state-setter calls issued by `endGame` (source lines 117-126), in
source order: `setIsPlaying(false)`, then the game-over message interpolating
the closure's (pre-update) `score`, then — only when `startTime` is truthy,
i.e. the JS guard `if (startTime)` with `null` AND the number `0` falsy —
the time-derived score. -/
def endGameEffs (now : ℤ) (s : GameState) : List Eff :=
  [Eff.setIsPlaying false, Eff.setMessage (gameOverMsg s.score)] ++
    (match s.startTime with
     | some t0 => if t0 = 0 then [] else [Eff.setScore (elapsedScore now t0)]
     | none => [])

/-- Model of `endGame`, at wall-clock time `now`, as a transformer of the component
state. -/
def endGame (now : ℤ) (s : GameState) : GameState :=
  (endGameEffs now s).foldl applyEff s

/-! ## Score submission (`submitScore`, source lines 89-107) -/

/-- The outcome of one `submitScore` call: the document appended to the
leaderboard collection (if any) and the status message shown to the user.
The appended document is `{ userId, score, timestamp: serverTimestamp() }`;
the timestamp is server-assigned, so only `(userId, score)` is recorded. -/
structure SubmitOutcome where
  written : Option (String × ℤ)
  message : String
deriving DecidableEq, Repr

/-- The guard message of `submitScore`. -/
def cannotSubmitMsg : String := "Cannot submit score. Not authenticated or score is 0."

/-- JS falsiness of the `userId` string state as tested by `!userId`:
`null` and the empty string are falsy. -/
def userIdFalsy : Option String → Bool
  | none => true
  | some u => u == ""

/-- Model of `submitScore`: guards `if (!db || !userId || score === 0)` and returns
without writing; otherwise attempts `addDoc` (whose success is the
environment's choice, `storeOk`). `db` is whether the Firestore handle is
non-null, `userId` is the identity (`none` = null; the empty string is also
falsy under `!userId`). -/
def submitScore (db : Bool) (userId : Option String) (score : ℤ)
    (storeOk : Bool) (errMsg : String) : SubmitOutcome :=
  if !db || userIdFalsy userId || score == 0 then
    { written := none, message := cannotSubmitMsg }
  else if storeOk then
    { written := some (userId.getD "", score), message := "Score submitted successfully!" }
  else
    { written := none, message := "Failed to submit score: " ++ errMsg }

/-! ## Gesture tracker (source lines 212-249) -/

/-- The mutable drag state of the gesture tracker:
`isDragging` and `previousMousePosition` (source lines 213-214). -/
@[ext]
structure DragState where
  isDragging : Bool
  prev : ℚ × ℚ
deriving DecidableEq, Repr

/-- The cube group's two accumulated rotation angles:
`rotation.x` (pitch) and `rotation.y` (yaw). -/
@[ext]
structure Rot where
  x : ℚ
  y : ℚ
deriving DecidableEq, Repr

/-- The constant `rotationSpeed = 0.005`. -/
def rotationSpeed : ℚ := 5 / 1000

/-- The body of `onMouseMove` after the coordinate extraction succeeded with
pointer position `p`: rotate by the delta against `previousMousePosition`
times `rotationSpeed` and store `p` as the new previous position
(source lines 226-235). -/
def moveUpdate (p : ℚ × ℚ) (st : DragState × Rot) : DragState × Rot :=
  ({ isDragging := st.1.isDragging, prev := p },
   { x := st.2.x + (p.2 - st.1.prev.2) * rotationSpeed,
     y := st.2.y + (p.1 - st.1.prev.1) * rotationSpeed })

/-- A pointer event at the position level (after coordinate extraction):
press, move, release. `mouseup`, `mouseleave` and `touchend` all invoke the
same release handler, which reads no coordinates. -/
inductive PtrEvt where
  | down (p : ℚ × ℚ)
  | move (p : ℚ × ℚ)
  | up
deriving DecidableEq, Repr

/-- One step of the gesture state machine: `onMouseDown` sets `isDragging`
and stores the position; `onMouseMove` returns unless dragging, else applies
`moveUpdate`; `onMouseUp` clears `isDragging`. -/
def stepEvent (st : DragState × Rot) : PtrEvt → DragState × Rot
  | .down p => ({ isDragging := true, prev := p }, st.2)
  | .move p => if st.1.isDragging then moveUpdate p st else st
  | .up => ({ isDragging := false, prev := st.1.prev }, st.2)

/-- Run a sequence of pointer events through the gesture state machine. -/
def runEvents (st : DragState × Rot) (es : List PtrEvt) : DragState × Rot :=
  es.foldl stepEvent st

/-! ## JS coordinate extraction (`e.clientX || e.touches[0].clientX`) -/

/-- A JS property value: `undefined`, or a number. -/
inductive JSVal where
  | undef
  | num (q : ℚ)
deriving DecidableEq, Repr

/-- JS truthiness of a `JSVal` (`undefined` and `0` are falsy). -/
def truthy : JSVal → Bool
  | .undef => false
  | .num q => !(q == 0)

/-- A raw DOM event as the handlers see it: its `clientX`/`clientY`
properties and its `touches` list (`none` when the event has no `touches`
property, as on mouse events). -/
structure DOMEvent where
  clientX : JSVal
  clientY : JSVal
  touches : Option (List (ℚ × ℚ))
deriving DecidableEq, Repr

/-- A mouse event: numeric `clientX`/`clientY`, no `touches` property. -/
def mouseEvent (x y : ℚ) : DOMEvent :=
  { clientX := .num x, clientY := .num y, touches := none }

/-- A touch event: no `clientX`/`clientY` on the event object, and the list
of active touch points, each with its own `clientX`/`clientY` pair. -/
def touchEvent (ts : List (ℚ × ℚ)) : DOMEvent :=
  { clientX := .undef, clientY := .undef, touches := some ts }

/-- Evaluate `e.touches[0].clientX` (`axis = false`) or `.clientY`
(`axis = true`): faults when `touches` is `undefined` or empty, because a
property of `undefined` is read. -/
def touchesHead (e : DOMEvent) (axis : Bool) : Except String ℚ :=
  match e.touches with
  | none => .error "TypeError"
  | some [] => .error "TypeError"
  | some (t :: _) => .ok (if axis then t.2 else t.1)

/-- Evaluate `e.clientX || e.touches[0].clientX` (source lines 218, 223). -/
def getClientX (e : DOMEvent) : Except String ℚ :=
  if truthy e.clientX then
    match e.clientX with
    | .num q => .ok q
    | .undef => touchesHead e false
  else touchesHead e false

/-- Evaluate `e.clientY || e.touches[0].clientY` (source lines 218, 224). -/
def getClientY (e : DOMEvent) : Except String ℚ :=
  if truthy e.clientY then
    match e.clientY with
    | .num q => .ok q
    | .undef => touchesHead e true
  else touchesHead e true

/-- Extract the pointer position of an event the way `onMouseDown` and
`onMouseMove` do (`clientX` is evaluated first), propagating a fault of
either coordinate read. -/
def getCoords (e : DOMEvent) : Except String (ℚ × ℚ) :=
  match getClientX e with
  | .error s => .error s
  | .ok x =>
    match getClientY e with
    | .error s => .error s
    | .ok y => .ok (x, y)

/-- Model of `onMouseDown` at the raw-event level: extract the position (which can
fault), set `isDragging`, store the position. -/
def onMouseDownE (e : DOMEvent) (st : DragState × Rot) :
    Except String (DragState × Rot) :=
  match getCoords e with
  | .error s => .error s
  | .ok p => .ok ({ isDragging := true, prev := p }, st.2)

/-- Model of `onMouseMove` at the raw-event level: return unchanged unless dragging
(the guard runs before any coordinate read), else extract the position
(which can fault) and apply `moveUpdate`. -/
def onMouseMoveE (e : DOMEvent) (st : DragState × Rot) :
    Except String (DragState × Rot) :=
  if st.1.isDragging then (getCoords e).map (fun p => moveUpdate p st)
  else .ok st

/-! ## Geometry builder (source lines 146-180) -/

/-- The constant `totalCubeDim = (cubeSize + gap) * 3 - gap`. -/
def totalCubeDim (s g : ℚ) : ℚ := (s + g) * 3 - g

/-- The constant `startPos = -totalCubeDim / 2 + cubeSize / 2`. -/
def startPos (s g : ℚ) : ℚ := -(totalCubeDim s g) / 2 + s / 2

/-- The position of grid index `i` on one axis:
`startPos + i * (cubeSize + gap)` (source lines 170-174). -/
def cellCoord (s g : ℚ) (i : ℕ) : ℚ := startPos s g + i * (s + g)

/-- The 27 cubelet center positions produced by the triple loop over
`x, y, z ∈ {0,1,2}` (source lines 152-179), in loop order. -/
def cubelets (s g : ℚ) : List (ℚ × ℚ × ℚ) :=
  (List.range 3).flatMap fun x =>
    (List.range 3).flatMap fun y =>
      (List.range 3).map fun z =>
        (cellCoord s g x, cellCoord s g y, cellCoord s g z)

/-- Squared center-to-center distance of two cubelet positions. -/
def distSq (p q : ℚ × ℚ × ℚ) : ℚ :=
  (p.1 - q.1) ^ 2 + (p.2.1 - q.2.1) ^ 2 + (p.2.2 - q.2.2) ^ 2

/-! ## Leaderboard sorting (source lines 73-77) -/

/-- One leaderboard document as mapped from the snapshot:
`{ id: doc.id, userId, score, ... }` (the server timestamp plays no role in
sorting and is omitted). -/
structure LBEntry where
  id : String
  userId : String
  score : ℤ
deriving DecidableEq, Repr

/-- Stable insertion of an entry into an already sorted (descending by
`score`) list: walk past strictly greater scores, stop at the first entry
whose score is `≤` the new one. Together with `sortDesc` this is the unique
output of any stable sort under the comparator
`(a, b) => b.score - a.score`, which is what
`Array.prototype.sort` (stable per ECMA-262) computes at line 76. -/
def insertDesc (e : LBEntry) : List LBEntry → List LBEntry
  | [] => [e]
  | a :: rest => if e.score < a.score then a :: insertDesc e rest else e :: a :: rest

/-- The stable descending-by-score sort applied to the snapshot before
display (`data.sort((a, b) => b.score - a.score)`). -/
def sortDesc : List LBEntry → List LBEntry
  | [] => []
  | a :: rest => insertDesc a (sortDesc rest)

/-! ## Unmount cleanup (source lines 252-266) -/

/-- The operations the cleanup function performs, in source order. -/
inductive CleanupOp where
  | removeResizeListener
  | removeMouseDown
  | removeMouseMove
  | removeMouseUp
  | removeMouseLeave
  | removeTouchStart
  | removeTouchMove
  | removeTouchEnd
  | removeRendererDom
  | disposeRenderer
  | disposeGeometry
  | disposeMaterials
  | clearScene
deriving DecidableEq, Repr

/-- The cleanup body, line by line (source lines 253-265). -/
def cleanupSeq : List CleanupOp :=
  [.removeResizeListener, .removeMouseDown, .removeMouseMove, .removeMouseUp,
   .removeMouseLeave, .removeTouchStart, .removeTouchMove, .removeTouchEnd,
   .removeRendererDom, .disposeRenderer, .disposeGeometry, .disposeMaterials,
   .clearScene]

/-- The free identifiers each cleanup line reads. -/
def opRefs : CleanupOp → List String
  | .removeResizeListener => ["window", "handleResize"]
  | .removeMouseDown => ["currentMount", "onMouseDown"]
  | .removeMouseMove => ["currentMount", "onMouseMove"]
  | .removeMouseUp => ["currentMount", "onMouseUp"]
  | .removeMouseLeave => ["currentMount", "onMouseUp"]
  | .removeTouchStart => ["currentMount", "onMouseDown"]
  | .removeTouchMove => ["currentMount", "onMouseMove"]
  | .removeTouchEnd => ["currentMount", "onMouseUp"]
  | .removeRendererDom => ["currentMount", "renderer"]
  | .disposeRenderer => ["renderer"]
  | .disposeGeometry => ["geometry"]
  | .disposeMaterials => ["materials"]
  | .clearScene => ["scene"]

/-- The identifiers bound in the scopes enclosing the cleanup closure: the
effect body's `const`s and `window`. `geometry`, `materials` and `cubelet`
are NOT here: they are declared with `const` inside the innermost `for`
block (source lines 156-169) and are block-scoped to one loop iteration. -/
def effectScope : List String :=
  ["window", "currentMount", "scene", "camera", "renderer", "lemonYellow",
   "limeGreen", "babyBlue", "black", "cubeSize", "gap", "totalCubeDim",
   "startPos", "cubelets", "ambientLight", "directionalLight", "animate",
   "handleResize", "isDragging", "previousMousePosition", "onMouseDown",
   "onMouseMove", "onMouseUp"]

/-- Whether every identifier a cleanup line reads is in scope. -/
def inScope (op : CleanupOp) : Bool :=
  (opRefs op).all fun n => effectScope.contains n

/-- Run the cleanup: execute lines in order; a line referencing an unbound
identifier throws a `ReferenceError`, which aborts the cleanup. Returns the
list of lines that executed and the error, if any. -/
def runCleanup : List CleanupOp → List CleanupOp × Option String
  | [] => ([], none)
  | op :: rest =>
    if inScope op then
      let r := runCleanup rest
      (op :: r.1, r.2)
    else
      ([], some ("ReferenceError: " ++ (opRefs op).foldl
        (fun acc n => if effectScope.contains n then acc else n) "" ++ " is not defined"))

/-- A listener-detaching cleanup line. -/
def isListenerRemoval : CleanupOp → Bool
  | .removeResizeListener => true
  | .removeMouseDown => true
  | .removeMouseMove => true
  | .removeMouseUp => true
  | .removeMouseLeave => true
  | .removeTouchStart => true
  | .removeTouchMove => true
  | .removeTouchEnd => true
  | _ => false

/-- A graphics-resource-releasing cleanup line (render surface, renderer,
geometries, materials, scene). -/
def isGraphicsRelease : CleanupOp → Bool
  | .removeRendererDom => true
  | .disposeRenderer => true
  | .disposeGeometry => true
  | .disposeMaterials => true
  | .clearScene => true
  | _ => false

/-! ## Theorems -/

/-- C7: for every prior session state (idle or already playing) and any
current time, `startGame` sets the score to 0, records the current time as
the start time, and sets the playing flag — a re-entrant reset. -/
theorem startGame_reentrant_reset (now : ℤ) (s : GameState) :
    (startGame now s).score = 0 ∧
    (startGame now s).startTime = some now ∧
    (startGame now s).isPlaying = true :=
  ⟨rfl, rfl, rfl⟩

/-- C3 counterexample: the claim as stated fails at a recorded start time
of exactly 0 — the JS guard `if (startTime)` is falsy on the number 0, so
a game started at clock 0 and ended 7400 ms later keeps score 0, not 70. -/
theorem endGame_score_zero_start_cex :
    (endGame (0 + 7400) (startGame 0 initialState)).score = 0 ∧
    (endGame (0 + 7400) (startGame 0 initialState)).score ≠ 70 := by
  decide

/-- C3 amended: for every game ended with a recorded NONZERO start time
`t0` (a start time of exactly 0 is falsy under the JS `if (startTime)`
guard and skips the recomputation), the derived score equals
`floor((now - t0)/1000) * 10`; in particular a game started at nonzero
`tS` and ended 7.4 seconds (7400 ms) later scores 70. -/
theorem endGame_score_formula (s : GameState) (now t0 : ℤ)
    (h : s.startTime = some t0) (ht : t0 ≠ 0) (s0 : GameState) (tS : ℤ)
    (htS : tS ≠ 0) :
    (endGame now s).score = (Int.fdiv (now - t0) 1000) * 10 ∧
    (endGame (tS + 7400) (startGame tS s0)).score = 70 := by
  constructor
  · simp [endGame, endGameEffs, h, ht, applyEff, elapsedScore]
  · have hst : (startGame tS s0).startTime = some tS := rfl
    have h74 : tS + 7400 - tS = 7400 := by ring
    have h7 : Int.fdiv (7400 : ℤ) 1000 = 7 := by decide
    simp [endGame, endGameEffs, hst, htS, applyEff, elapsedScore, h74, h7]

/-- Witness for the amended C3 at a concrete input: a game started at time
1000 ms and ended at time 8400 ms (7400 ms later) scores 70. -/
theorem endGame_score_formula_witness :
    ((startGame 1000 initialState).startTime = some 1000 ∧ (1000 : ℤ) ≠ 0) ∧
    (endGame 8400 (startGame 1000 initialState)).score = (Int.fdiv (8400 - 1000) 1000) * 10 ∧
    (endGame (1000 + 7400) (startGame 1000 initialState)).score = 70 :=
  ⟨⟨rfl, by decide⟩,
   (endGame_score_formula (startGame 1000 initialState) 8400 1000 rfl (by decide)
      initialState 1000 (by decide)).1,
   (endGame_score_formula (startGame 1000 initialState) 8400 1000 rfl (by decide)
      initialState 1000 (by decide)).2⟩

/-- C8 counterexample: ending while idle is NOT a no-op on the observable
state — from the initial state (no start time recorded, empty message),
`endGame` changes the state, because it still writes the game-over message. -/
theorem endGame_idle_not_noop_cex : endGame 0 initialState ≠ initialState := by
  decide

/-- C8 amended: ending with no recorded start time leaves the score and the
start time unchanged and the playing flag false, but it still sets the
user-visible message to the game-over text (interpolating the unchanged
score); it is not a complete no-op on the user-visible state. -/
theorem endGame_idle_effect (now : ℤ) (s : GameState) (h : s.startTime = none) :
    (endGame now s).score = s.score ∧
    (endGame now s).startTime = s.startTime ∧
    (endGame now s).isPlaying = false ∧
    (endGame now s).message = gameOverMsg s.score := by
  simp [endGame, endGameEffs, h, applyEff]

/-- Witness for the amended C8 at the initial state. -/
theorem endGame_idle_effect_witness :
    initialState.startTime = none ∧
    ((endGame 0 initialState).score = initialState.score ∧
     (endGame 0 initialState).startTime = initialState.startTime ∧
     (endGame 0 initialState).isPlaying = false ∧
     (endGame 0 initialState).message = gameOverMsg initialState.score) :=
  ⟨rfl, endGame_idle_effect 0 initialState rfl⟩

/-- C10: whenever the score recomputation fires (a recorded nonzero start
time — the JS guard `if (startTime)` is falsy on 0, in which case no score
write happens at all), `endGame` issues its state setters in an order in
which the game-over message — interpolating the PRE-update score —
strictly precedes the write of the newly derived score; consequently the
displayed message carries the stale score, and for any game begun via
`startGame` (which resets the score to 0) the message always interpolates
0, whatever the new score is. -/
theorem endGame_message_stale_score (s : GameState) (now t0 : ℤ)
    (h : s.startTime = some t0) (ht : t0 ≠ 0) (s0 : GameState) (tS : ℤ) :
    endGameEffs now s =
      [Eff.setIsPlaying false, Eff.setMessage (gameOverMsg s.score),
       Eff.setScore (elapsedScore now t0)] ∧
    (endGame now s).message = gameOverMsg s.score ∧
    (endGame now s).score = elapsedScore now t0 ∧
    (endGame now (startGame tS s0)).message = gameOverMsg 0 := by
  have hst : (startGame tS s0).startTime = some tS := rfl
  refine ⟨by simp [endGameEffs, h, ht], ?_, ?_, ?_⟩
  · simp [endGame, endGameEffs, h, ht, applyEff]
  · simp [endGame, endGameEffs, h, ht, applyEff]
  · by_cases htS : tS = 0 <;>
      simp [endGame, endGameEffs, hst, htS, applyEff, startGame, startGameEffs]

/-- Witness for C10 at a concrete input: a state with score 5 and start time
1000 ms, ended at 3500 ms. -/
theorem endGame_message_stale_score_witness :
    ((GameState.mk 5 (some 1000) true "").startTime = some 1000 ∧ (1000 : ℤ) ≠ 0) ∧
    (endGameEffs 3500 (GameState.mk 5 (some 1000) true "") =
      [Eff.setIsPlaying false, Eff.setMessage (gameOverMsg 5),
       Eff.setScore (elapsedScore 3500 1000)] ∧
     (endGame 3500 (GameState.mk 5 (some 1000) true "")).message = gameOverMsg 5 ∧
     (endGame 3500 (GameState.mk 5 (some 1000) true "")).score = elapsedScore 3500 1000 ∧
     (endGame 3500 (startGame 1 initialState)).message = gameOverMsg 0) :=
  ⟨⟨rfl, by decide⟩,
   endGame_message_stale_score (GameState.mk 5 (some 1000) true "") 3500 1000 rfl
     (by decide) initialState 1⟩

/-- C4: whenever the identity is absent or the score equals 0, `submitScore`
performs no store write and sets the user-visible rejection message — in
particular rejection on score 0 holds whether or not an identity is present,
and for any store behaviour. -/
theorem submitScore_rejects (db : Bool) (uid : Option String) (sc : ℤ)
    (ok : Bool) (em : String) (h : uid = none ∨ sc = 0) :
    (submitScore db uid sc ok em).written = none ∧
    (submitScore db uid sc ok em).message = cannotSubmitMsg := by
  rcases h with h | h <;> subst h <;> simp [submitScore, userIdFalsy]

/-- Witness for C4 at a concrete input: identity present, score 0 — the
write is rejected with the message, independently of identity presence. -/
theorem submitScore_rejects_witness :
    ((some "u" : Option String) = none ∨ (0 : ℤ) = 0) ∧
    (submitScore true (some "u") 0 true "").written = none ∧
    (submitScore true (some "u") 0 true "").message = cannotSubmitMsg :=
  ⟨Or.inr rfl,
   (submitScore_rejects true (some "u") 0 true "" (Or.inr rfl)).1,
   (submitScore_rejects true (some "u") 0 true "" (Or.inr rfl)).2⟩

/-- C6: the cleanup does detach all listeners strictly before any graphics
release (first 8 lines detach listeners, the rest touch graphics), but
executing it faults: after removing the renderer's DOM element and disposing
the renderer it throws `ReferenceError: geometry is not defined`, because
`geometry` and `materials` are block-scoped to the construction loop; the
material disposal and the scene clear never run, so the graphics resources
are not all released. -/
theorem cleanup_faults_on_dispose :
    runCleanup cleanupSeq =
      ([.removeResizeListener, .removeMouseDown, .removeMouseMove, .removeMouseUp,
        .removeMouseLeave, .removeTouchStart, .removeTouchMove, .removeTouchEnd,
        .removeRendererDom, .disposeRenderer],
       some "ReferenceError: geometry is not defined") ∧
    CleanupOp.disposeMaterials ∉ (runCleanup cleanupSeq).1 ∧
    CleanupOp.clearScene ∉ (runCleanup cleanupSeq).1 ∧
    (∀ op ∈ cleanupSeq.take 8, isListenerRemoval op = true) ∧
    (∀ op ∈ cleanupSeq.drop 8, isGraphicsRelease op = true) := by
  decide

/-- C9: the coordinate extraction `e.clientX || e.touches[0].clientX` is not
total over mouse input. A mouse event with `clientX = 0` (or `clientY = 0`)
is falsy on the left operand, falls through to `e.touches`, which is
`undefined` on mouse events, and faults with a `TypeError` instead of using
the valid coordinate 0; extraction succeeds exactly for mouse events with
both coordinates nonzero and for touch events with at least one active
touch point, and the press handler (and the move handler while dragging)
faults accordingly. -/
theorem pointer_extraction_not_total (x y : ℚ) (ts : List (ℚ × ℚ)) :
    getCoords (mouseEvent 0 y) = Except.error "TypeError" ∧
    getCoords (mouseEvent x 0) = Except.error "TypeError" ∧
    (x ≠ 0 → y ≠ 0 → getCoords (mouseEvent x y) = Except.ok (x, y)) ∧
    (∀ t rest, ts = t :: rest → getCoords (touchEvent ts) = Except.ok (t.1, t.2)) ∧
    getCoords (touchEvent []) = Except.error "TypeError" ∧
    (∀ st : DragState × Rot, onMouseDownE (mouseEvent 0 y) st = Except.error "TypeError") ∧
    (∀ st : DragState × Rot, st.1.isDragging = true →
      onMouseMoveE (mouseEvent 0 y) st = Except.error "TypeError") := by
  have hx0 : getCoords (mouseEvent 0 y) = Except.error "TypeError" := rfl
  refine ⟨hx0, ?_, ?_, ?_, rfl, fun st => ?_, fun st hd => ?_⟩
  · by_cases hx : x = 0
    · subst hx; rfl
    · simp [getCoords, getClientX, getClientY, mouseEvent, truthy, touchesHead, hx]
  · intro hx hy
    simp [getCoords, getClientX, getClientY, mouseEvent, truthy, touchesHead, hx, hy]
  · rintro t rest rfl
    rfl
  · simp [onMouseDownE, hx0]
  · simp only [onMouseMoveE, hd, if_pos, hx0]
    rfl

/-- Witness for C9 at concrete inputs: a mouse event at (3, 4) and a touch
event with one touch point at (5, 6) both extract successfully. -/
theorem pointer_extraction_not_total_witness :
    ((3 : ℚ) ≠ 0 ∧ (4 : ℚ) ≠ 0 ∧
      ([((5 : ℚ), (6 : ℚ))] = ((5 : ℚ), (6 : ℚ)) :: [])) ∧
    getCoords (mouseEvent 0 4) = Except.error "TypeError" ∧
    getCoords (mouseEvent 3 4) = Except.ok (3, 4) ∧
    getCoords (touchEvent [(5, 6)]) = Except.ok (5, 6) :=
  ⟨⟨by norm_num, by norm_num, rfl⟩,
   (pointer_extraction_not_total 3 4 [(5, 6)]).1,
   (pointer_extraction_not_total 3 4 [(5, 6)]).2.2.1 (by norm_num) (by norm_num),
   (pointer_extraction_not_total 3 4 [(5, 6)]).2.2.2.1 (5, 6) [] rfl⟩

/-- Helper: the last element of a list that ends in `[x]`, with any
default. -/
theorem getLastD_append_single {α : Type} (l : List α) (x d : α) :
    (l ++ [x]).getLastD d = x := by
  induction l generalizing d with
  | nil => rfl
  | cons a t ih => rw [List.cons_append, List.getLastD_cons]; exact ih a

/-- Processing a run of move events while dragging telescopes: the previous
position becomes the last sample and the rotation accumulates
`rotationSpeed` times the total displacement from the initial previous
position to the last sample. -/
theorem runEvents_moves (l : List (ℚ × ℚ)) (prev : ℚ × ℚ) (r : Rot) :
    runEvents (⟨true, prev⟩, r) (l.map PtrEvt.move) =
      (⟨true, l.getLastD prev⟩,
       ⟨r.x + ((l.getLastD prev).2 - prev.2) * rotationSpeed,
        r.y + ((l.getLastD prev).1 - prev.1) * rotationSpeed⟩) := by
  induction l generalizing prev r with
  | nil =>
    simp only [List.map_nil, runEvents, List.foldl_nil, List.getLastD_nil]
    exact Prod.ext_iff.mpr ⟨rfl, Rot.ext (by ring) (by ring)⟩
  | cons q rest ih =>
    have hstep : runEvents (⟨true, prev⟩, r) ((q :: rest).map PtrEvt.move) =
        runEvents (⟨true, q⟩,
          ⟨r.x + (q.2 - prev.2) * rotationSpeed,
           r.y + (q.1 - prev.1) * rotationSpeed⟩) (rest.map PtrEvt.move) := rfl
    rw [hstep, ih]
    simp only [List.getLastD_cons]
    exact Prod.ext_iff.mpr ⟨rfl, Rot.ext (by ring) (by ring)⟩

/-- C1: a drag that presses at `p0`, moves through any finite sequence of
intermediate samples, reaches `p0 + (dx, dy)` at its last sample and then
releases, changes the group's yaw (`rotation.y`) by exactly
`dx * rotationSpeed` and its pitch (`rotation.x`) by exactly
`dy * rotationSpeed`, from any starting state and orientation — the
per-move deltas against the previous sample telescope, and nothing clamps
or bounds the resulting angles. -/
theorem drag_total_delta (st0 : DragState × Rot) (p0 : ℚ × ℚ) (dx dy : ℚ)
    (mids : List (ℚ × ℚ)) :
    runEvents st0
        ((PtrEvt.down p0 ::
          (mids ++ [(p0.1 + dx, p0.2 + dy)]).map PtrEvt.move) ++ [PtrEvt.up]) =
      (⟨false, (p0.1 + dx, p0.2 + dy)⟩,
       ⟨st0.2.x + dy * rotationSpeed, st0.2.y + dx * rotationSpeed⟩) := by
  have hdown : runEvents st0
      ((PtrEvt.down p0 ::
        (mids ++ [(p0.1 + dx, p0.2 + dy)]).map PtrEvt.move) ++ [PtrEvt.up]) =
      runEvents (⟨⟨true, p0⟩, st0.2⟩)
        (((mids ++ [(p0.1 + dx, p0.2 + dy)]).map PtrEvt.move) ++ [PtrEvt.up]) := rfl
  have hsplit : ∀ (st : DragState × Rot) (l : List PtrEvt),
      runEvents st (l ++ [PtrEvt.up]) = stepEvent (runEvents st l) PtrEvt.up := by
    intro st l
    simp [runEvents, List.foldl_append]
  rw [hdown, hsplit, runEvents_moves, getLastD_append_single]
  simp only [stepEvent]
  exact Prod.ext_iff.mpr ⟨rfl, Rot.ext (by ring) (by ring)⟩

/-- Helper: stable insertion permutes inserting at the head. -/
theorem insertDesc_perm (e : LBEntry) (l : List LBEntry) :
    (insertDesc e l).Perm (e :: l) := by
  induction l with
  | nil => simp [insertDesc]
  | cons a rest ih =>
    by_cases h : e.score < a.score
    · simp only [insertDesc, if_pos h]
      exact (ih.cons a).trans (List.Perm.swap e a rest)
    · simp [insertDesc, if_neg h]

/-- Helper: the stable sort is a permutation of its input. -/
theorem sortDesc_perm (l : List LBEntry) : (sortDesc l).Perm l := by
  induction l with
  | nil => simp [sortDesc]
  | cons a rest ih =>
    exact (insertDesc_perm a (sortDesc rest)).trans (ih.cons a)

/-- Helper: stable insertion preserves the descending-by-score pairwise
order. -/
theorem insertDesc_pairwise (e : LBEntry) (l : List LBEntry)
    (h : l.Pairwise (fun a b => b.score ≤ a.score)) :
    (insertDesc e l).Pairwise (fun a b => b.score ≤ a.score) := by
  induction l with
  | nil => simp [insertDesc]
  | cons a rest ih =>
    rcases List.pairwise_cons.mp h with ⟨ha, hrest⟩
    by_cases hc : e.score < a.score
    · simp only [insertDesc, if_pos hc]
      refine List.pairwise_cons.mpr ⟨?_, ih hrest⟩
      intro x hx
      rcases List.mem_cons.mp ((insertDesc_perm e rest).mem_iff.mp hx) with rfl | hx
      · exact le_of_lt hc
      · exact ha x hx
    · push_neg at hc
      simp only [insertDesc, if_neg (not_lt.mpr hc)]
      refine List.pairwise_cons.mpr ⟨?_, List.pairwise_cons.mpr ⟨ha, hrest⟩⟩
      intro x hx
      rcases List.mem_cons.mp hx with rfl | hx
      · exact hc
      · exact le_trans (ha x hx) hc

/-- Helper: the stable sort is descending by score. -/
theorem sortDesc_pairwise (l : List LBEntry) :
    (sortDesc l).Pairwise (fun a b => b.score ≤ a.score) := by
  induction l with
  | nil => simp [sortDesc]
  | cons a rest ih => exact insertDesc_pairwise a (sortDesc rest) ih

/-- Helper: inserting an entry whose score is `v` prepends it to the
`score = v` fibre (it passes only strictly greater scores). -/
theorem insertDesc_filter_pos (v : ℤ) (e : LBEntry) (he : e.score = v)
    (l : List LBEntry) :
    (insertDesc e l).filter (fun a => a.score == v) =
      e :: l.filter (fun a => a.score == v) := by
  induction l with
  | nil => simp [insertDesc, List.filter, he]
  | cons a rest ih =>
    by_cases hc : e.score < a.score
    · have ha : (a.score == v) = false := by
        rw [beq_eq_false_iff_ne]
        intro hav
        rw [hav, ← he] at hc
        exact lt_irrefl _ hc
      simp only [insertDesc, if_pos hc, List.filter_cons, ha]
      simpa [ha] using ih
    · have hee : (e.score == v) = true := by simpa using he
      simp [insertDesc, if_neg hc, List.filter_cons, hee]

/-- Helper: inserting an entry whose score is not `v` leaves the
`score = v` fibre unchanged. -/
theorem insertDesc_filter_neg (v : ℤ) (e : LBEntry) (he : e.score ≠ v)
    (l : List LBEntry) :
    (insertDesc e l).filter (fun a => a.score == v) =
      l.filter (fun a => a.score == v) := by
  have hee : (e.score == v) = false := beq_eq_false_iff_ne.mpr he
  induction l with
  | nil => simp [insertDesc, List.filter, hee]
  | cons a rest ih =>
    by_cases hc : e.score < a.score
    · simp only [insertDesc, if_pos hc, List.filter_cons]
      rw [ih]
    · simp [insertDesc, if_neg hc, List.filter_cons, hee]

/-- Helper: stability of the sort, as preservation of every equal-score
fibre in its original relative order. -/
theorem sortDesc_filter (l : List LBEntry) (v : ℤ) :
    (sortDesc l).filter (fun a => a.score == v) =
      l.filter (fun a => a.score == v) := by
  induction l with
  | nil => rfl
  | cons a rest ih =>
    by_cases ha : a.score = v
    · rw [sortDesc, insertDesc_filter_pos v a ha, ih, List.filter_cons,
        if_pos (by simpa using ha)]
    · rw [sortDesc, insertDesc_filter_neg v a ha, ih, List.filter_cons,
        if_neg (by simpa using ha)]

/-- C5: for every snapshot of at most the subscription's maximum of 10
entries, the displayed list is a permutation of the snapshot, sorted
descending by score, and entries of equal score keep the relative order the
stable sort yields from the snapshot order (every equal-score fibre is
preserved verbatim); in particular the snapshot
`[{score 50}, {score 90}, {score 90}]` displays as `[90, 90, 50]` with the
two 90-entries in their original relative order. -/
theorem leaderboard_sort_spec (l : List LBEntry) (hlen : l.length ≤ 10) :
    (sortDesc l).Perm l ∧
    (sortDesc l).Pairwise (fun a b => b.score ≤ a.score) ∧
    (∀ v : ℤ, (sortDesc l).filter (fun a => a.score == v) =
      l.filter (fun a => a.score == v)) ∧
    sortDesc [⟨"d1", "u1", 50⟩, ⟨"d2", "u2", 90⟩, ⟨"d3", "u3", 90⟩] =
      [⟨"d2", "u2", 90⟩, ⟨"d3", "u3", 90⟩, ⟨"d1", "u1", 50⟩] :=
  ⟨sortDesc_perm l, sortDesc_pairwise l, sortDesc_filter l, by decide⟩

/-- Witness for C5 at the concrete three-entry snapshot of the spec. -/
theorem leaderboard_sort_spec_witness :
    ([⟨"d1", "u1", 50⟩, ⟨"d2", "u2", 90⟩, ⟨"d3", "u3", 90⟩] : List LBEntry).length ≤ 10 ∧
    (sortDesc [⟨"d1", "u1", 50⟩, ⟨"d2", "u2", 90⟩, ⟨"d3", "u3", 90⟩]).Perm
      [⟨"d1", "u1", 50⟩, ⟨"d2", "u2", 90⟩, ⟨"d3", "u3", 90⟩] ∧
    sortDesc [⟨"d1", "u1", 50⟩, ⟨"d2", "u2", 90⟩, ⟨"d3", "u3", 90⟩] =
      [⟨"d2", "u2", 90⟩, ⟨"d3", "u3", 90⟩, ⟨"d1", "u1", 50⟩] :=
  ⟨by decide,
   (leaderboard_sort_spec [⟨"d1", "u1", 50⟩, ⟨"d2", "u2", 90⟩, ⟨"d3", "u3", 90⟩]
      (by decide)).1,
   (leaderboard_sort_spec [⟨"d1", "u1", 50⟩, ⟨"d2", "u2", 90⟩, ⟨"d3", "u3", 90⟩]
      (by decide)).2.2.2⟩

/-- Helper: membership in the cubelet list is exactly having a grid
coordinate in `{0,1,2}³`. -/
theorem mem_cubelets (s g : ℚ) (p : ℚ × ℚ × ℚ) :
    p ∈ cubelets s g ↔ ∃ x y z : ℕ, x < 3 ∧ y < 3 ∧ z < 3 ∧
      p = (cellCoord s g x, cellCoord s g y, cellCoord s g z) := by
  simp only [cubelets, List.mem_flatMap, List.mem_map, List.mem_range]
  constructor
  · rintro ⟨x, hx, y, hy, z, hz, rfl⟩
    exact ⟨x, y, z, hx, hy, hz, rfl⟩
  · rintro ⟨x, y, z, hx, hy, hz, rfl⟩
    exact ⟨x, hx, y, hy, z, hz, rfl⟩

/-- Helper: axis positions differ by the index difference times the cell
pitch `s + g`. -/
theorem cellCoord_sub (s g : ℚ) (i j : ℕ) :
    cellCoord s g i - cellCoord s g j = ((i : ℚ) - (j : ℚ)) * (s + g) := by
  simp only [cellCoord, startPos, totalCubeDim]
  ring

/-- Helper: with positive pitch, distinct indices give distinct axis
positions. -/
theorem cellCoord_inj (s g : ℚ) (hsg : 0 < s + g) (i j : ℕ)
    (h : cellCoord s g i = cellCoord s g j) : i = j := by
  have h0 : ((i : ℚ) - (j : ℚ)) * (s + g) = 0 := by
    rw [← cellCoord_sub, h, sub_self]
  rcases mul_eq_zero.mp h0 with h1 | h1
  · have h2 : (i : ℚ) = j := by linarith
    exact_mod_cast h2
  · exact absurd h1 (ne_of_gt hsg)

/-- Helper: negating the axis position of index `i < 3` gives the axis
position of index `2 - i` — the grid is centered on the origin. -/
theorem cellCoord_neg (s g : ℚ) (i : ℕ) (hi : i < 3) :
    -(cellCoord s g i) = cellCoord s g (2 - i) := by
  interval_cases i <;>
    · simp only [cellCoord, startPos, totalCubeDim]
      push_cast
      ring

/-- Helper: a sum of three integer squares, not all of them zero, is at
least 1. -/
theorem sq_sum_ge_one (a b c : ℤ) (h : ¬(a = 0 ∧ b = 0 ∧ c = 0)) :
    (1 : ℤ) ≤ a ^ 2 + b ^ 2 + c ^ 2 := by
  by_cases ha : a = 0
  · by_cases hb : b = 0
    · have hc : c ≠ 0 := fun hc => h ⟨ha, hb, hc⟩
      have h1 : 1 ≤ |c| := Int.one_le_abs hc
      nlinarith [sq_abs c, sq_nonneg a, sq_nonneg b, abs_nonneg c]
    · have h1 : 1 ≤ |b| := Int.one_le_abs hb
      nlinarith [sq_abs b, sq_nonneg a, sq_nonneg c, abs_nonneg b]
  · have h1 : 1 ≤ |a| := Int.one_le_abs ha
    nlinarith [sq_abs a, sq_nonneg b, sq_nonneg c, abs_nonneg a]

/-- Helper: the squared distance of two cells is the squared pitch times the
squared euclidean norm of the grid-coordinate difference. -/
theorem distSq_cells (s g : ℚ) (x1 y1 z1 x2 y2 z2 : ℕ) :
    distSq (cellCoord s g x1, cellCoord s g y1, cellCoord s g z1)
        (cellCoord s g x2, cellCoord s g y2, cellCoord s g z2) =
      (s + g) ^ 2 * (((x1 : ℚ) - x2) ^ 2 + ((y1 : ℚ) - y2) ^ 2 + ((z1 : ℚ) - z2) ^ 2) := by
  simp only [distSq, cellCoord, startPos, totalCubeDim]
  ring

/-- Helper: any two distinct cells are at squared distance at least the
squared pitch. -/
theorem distSq_lower (s g : ℚ) (hsg : 0 < s + g) (p q : ℚ × ℚ × ℚ)
    (hp : p ∈ cubelets s g) (hq : q ∈ cubelets s g) (hne : p ≠ q) :
    (s + g) ^ 2 ≤ distSq p q := by
  obtain ⟨x1, y1, z1, hx1, hy1, hz1, rfl⟩ := (mem_cubelets s g p).mp hp
  obtain ⟨x2, y2, z2, hx2, hy2, hz2, rfl⟩ := (mem_cubelets s g q).mp hq
  have hidx : ¬((x1 : ℤ) - x2 = 0 ∧ (y1 : ℤ) - y2 = 0 ∧ (z1 : ℤ) - z2 = 0) := by
    rintro ⟨h1, h2, h3⟩
    apply hne
    have ex : x1 = x2 := by omega
    have ey : y1 = y2 := by omega
    have ez : z1 = z2 := by omega
    rw [ex, ey, ez]
  have hZ : (1 : ℤ) ≤ ((x1 : ℤ) - x2) ^ 2 + ((y1 : ℤ) - y2) ^ 2 + ((z1 : ℤ) - z2) ^ 2 :=
    sq_sum_ge_one _ _ _ hidx
  have hQ : (1 : ℚ) ≤ ((x1 : ℚ) - x2) ^ 2 + ((y1 : ℚ) - y2) ^ 2 + ((z1 : ℚ) - z2) ^ 2 := by
    exact_mod_cast hZ
  rw [distSq_cells]
  nlinarith [sq_nonneg (s + g)]

/-- Helper: the minimum pairwise center-to-center distance over the 27
cells is exactly the pitch `s + g`. -/
theorem cubelets_min_spacing (s g : ℚ) (hs : 0 < s) (hg : 0 < g) :
    IsLeast {r : ℝ | ∃ p ∈ cubelets s g, ∃ q ∈ cubelets s g, p ≠ q ∧
      r = Real.sqrt ((distSq p q : ℝ))} ((s : ℝ) + g) := by
  have hsg : 0 < s + g := by linarith
  constructor
  · refine ⟨(cellCoord s g 0, cellCoord s g 0, cellCoord s g 0),
      (mem_cubelets s g _).mpr ⟨0, 0, 0, by norm_num, by norm_num, by norm_num, rfl⟩,
      (cellCoord s g 1, cellCoord s g 0, cellCoord s g 0),
      (mem_cubelets s g _).mpr ⟨1, 0, 0, by norm_num, by norm_num, by norm_num, rfl⟩,
      ?_, ?_⟩
    · intro hcontra
      have h01 : cellCoord s g 0 = cellCoord s g 1 := (Prod.ext_iff.mp hcontra).1
      have := cellCoord_inj s g hsg 0 1 h01
      omega
    · have hd : distSq (cellCoord s g 0, cellCoord s g 0, cellCoord s g 0)
          (cellCoord s g 1, cellCoord s g 0, cellCoord s g 0) = (s + g) ^ 2 := by
        rw [distSq_cells]
        push_cast
        ring
      rw [hd]
      push_cast
      rw [Real.sqrt_sq (by positivity)]
  · rintro r ⟨p, hp, q, hq, hne, rfl⟩
    have hlow : (s + g) ^ 2 ≤ distSq p q := distSq_lower s g hsg p q hp hq hne
    have hlowR : (((s + g) : ℚ) : ℝ) ^ 2 ≤ ((distSq p q : ℚ) : ℝ) := by
      exact_mod_cast hlow
    calc ((s : ℝ) + g) = Real.sqrt (((s : ℝ) + g) ^ 2) :=
          (Real.sqrt_sq (by positivity)).symm
      _ ≤ Real.sqrt ((distSq p q : ℝ)) := by
          apply Real.sqrt_le_sqrt
          push_cast at hlowR ⊢
          linarith

/-- C2: for every positive cell size `s` and gap `g`, the builder produces
exactly 27 cells; a position is produced exactly when it has a grid
coordinate `(x, y, z)` with `x, y, z ∈ {0, 1, 2}` and per-axis value
`startPos + i * (s + g)` with `startPos = -((s + g) * 3 - g)/2 + s/2`, and
distinct indices give distinct axis positions (one cell per coordinate);
the set of positions is symmetric about the origin; and the minimum
pairwise center-to-center distance equals `s + g`. -/
theorem geometry_builder_spec (s g : ℚ) (hs : 0 < s) (hg : 0 < g) :
    (cubelets s g).length = 27 ∧
    startPos s g = -((s + g) * 3 - g) / 2 + s / 2 ∧
    (∀ p : ℚ × ℚ × ℚ, p ∈ cubelets s g ↔ ∃ x y z : ℕ, x < 3 ∧ y < 3 ∧ z < 3 ∧
      p = (cellCoord s g x, cellCoord s g y, cellCoord s g z)) ∧
    (∀ i j : ℕ, cellCoord s g i = cellCoord s g j → i = j) ∧
    (∀ p ∈ cubelets s g, (-p.1, -p.2.1, -p.2.2) ∈ cubelets s g) ∧
    IsLeast {r : ℝ | ∃ p ∈ cubelets s g, ∃ q ∈ cubelets s g, p ≠ q ∧
      r = Real.sqrt ((distSq p q : ℝ))} ((s : ℝ) + g) := by
  have hsg : 0 < s + g := by linarith
  refine ⟨rfl, rfl, mem_cubelets s g, cellCoord_inj s g hsg, ?_,
    cubelets_min_spacing s g hs hg⟩
  intro p hp
  obtain ⟨x, y, z, hx, hy, hz, rfl⟩ := (mem_cubelets s g p).mp hp
  refine (mem_cubelets s g _).mpr
    ⟨2 - x, 2 - y, 2 - z, by omega, by omega, by omega, ?_⟩
  exact Prod.ext_iff.mpr ⟨cellCoord_neg s g x hx,
    Prod.ext_iff.mpr ⟨cellCoord_neg s g y hy, cellCoord_neg s g z hz⟩⟩

/-- Witness for C2 at the source's own constants: cell size 1, gap 0.05. -/
theorem geometry_builder_spec_witness :
    (0 : ℚ) < 1 ∧ (0 : ℚ) < 1 / 20 ∧
    ((cubelets 1 (1 / 20)).length = 27 ∧
     startPos 1 (1 / 20) = -((1 + 1 / 20) * 3 - 1 / 20) / 2 + 1 / 2 ∧
     (∀ p : ℚ × ℚ × ℚ, p ∈ cubelets 1 (1 / 20) ↔ ∃ x y z : ℕ,
        x < 3 ∧ y < 3 ∧ z < 3 ∧
        p = (cellCoord 1 (1 / 20) x, cellCoord 1 (1 / 20) y, cellCoord 1 (1 / 20) z)) ∧
     (∀ i j : ℕ, cellCoord 1 (1 / 20) i = cellCoord 1 (1 / 20) j → i = j) ∧
     (∀ p ∈ cubelets 1 (1 / 20), (-p.1, -p.2.1, -p.2.2) ∈ cubelets 1 (1 / 20)) ∧
     IsLeast {r : ℝ | ∃ p ∈ cubelets 1 (1 / 20), ∃ q ∈ cubelets 1 (1 / 20), p ≠ q ∧
        r = Real.sqrt ((distSq p q : ℝ))} (((1 : ℚ) : ℝ) + ((1 / 20 : ℚ) : ℝ))) :=
  ⟨by norm_num, by norm_num,
   geometry_builder_spec 1 (1 / 20) (by norm_num) (by norm_num)⟩

end Stube
